import Mathlib

/-!
Shallow embedding of the expense-form domain logic of the
opencollective-frontend repository: the payout-method eligibility filter
(two identical copies, one per component file), the submission-shape
reducer `prepareExpenseForSubmit`, and the expense validator `validate`.

JavaScript objects are modelled as Lean structures; an absent or
`undefined`/`null` field is modelled as `none` of an `Option` type, so
`pick` dropping a key and a key holding `undefined` coincide (lodash
`isEqual` and the `?.` accessors of the source make the same
identification).
-/

/-- Payout method types, from the constants module
(src imports PayoutMethodType from lib/constants/payout-method, which is
outside the given sources; the constructors are those the sources and the
spec name: account balance, bank account, paypal, other). -/
inductive PayoutMethodType where
  | ACCOUNT_BALANCE
  | BANK_ACCOUNT
  | PAYPAL
  | OTHER
deriving DecidableEq, Repr

/-- Account (collective) types, from the constants module
(outside the given sources; constructors cover the families the source
comments name: the Collective family plus organizations and users). -/
inductive CollectiveType where
  | COLLECTIVE
  | FUND
  | EVENT
  | PROJECT
  | ORGANIZATION
  | USER
deriving DecidableEq, Repr

/-- Modelled from the spec: the collective-family set imported by the
ExpenseForm module from lib/constants/collectives (not among the given
sources). The source comment reads: the Collective family (Collective,
Fund, Event, Project). -/
def CollectiveFamilyTypes : List CollectiveType :=
  [CollectiveType.COLLECTIVE, CollectiveType.FUND, CollectiveType.EVENT, CollectiveType.PROJECT]

/-- Modelled from the spec: the collective-family set imported by
ExpenseFormPayeeSignUpStep.js from lib/constants/collectives (not among
the given sources). The source comment next to its use reads the same as
for CollectiveFamilyTypes: the Collective family (Collective, Fund,
Event, Project). -/
def AccountTypesWithHost : List CollectiveType :=
  [CollectiveType.COLLECTIVE, CollectiveType.FUND, CollectiveType.EVENT, CollectiveType.PROJECT]

/-- A payout method object. Fields are those the sources read:
id, name, data, isSaved, type. `data` is an opaque mapping of
method-specific fields, modelled as an association list. The synthetic
account-balance entry has no name key, so `name` is optional. -/
structure PayoutMethod where
  id : String
  name : Option String
  data : List (String × String)
  isSaved : Bool
  type : PayoutMethodType
deriving DecidableEq, Repr

/-- A payee as consumed by the payout-method eligibility filter:
an account with a type tag, an isActive flag and an optional list of
payout methods (get(payee, payoutMethods) may be undefined). -/
structure Payee where
  id : String
  type : CollectiveType
  isActive : Bool
  payoutMethods : Option (List PayoutMethod)
deriving DecidableEq, Repr

/-- The synthesized account-balance payout method unshifted by the
filter: id is the sentinel "new", data is empty, isSaved is true,
no name key. -/
def syntheticAccountBalance : PayoutMethod :=
  { id := "new", name := none, data := [], isSaved := true,
    type := PayoutMethodType.ACCOUNT_BALANCE }

namespace ExpenseForm

/-- getPayoutMethodsFromPayee as defined in the ExpenseForm module
(the file also holding CollectivePickerInviteMenu in the given sources):
keep saved methods; if the payee is active and no retained method is an
account-balance one, unshift the synthetic entry; if the payee type is in
CollectiveFamilyTypes, keep only account-balance entries; the final
length check returns the shared EMPTY_ARRAY for an empty result, which
is the empty list. -/
def getPayoutMethodsFromPayee (payee : Option Payee) : List PayoutMethod :=
  let basePms : List PayoutMethod := (payee.bind Payee.payoutMethods).getD []
  let filteredPms := basePms.filter (fun pm => pm.isSaved)
  let filteredPms : List PayoutMethod :=
    if (payee.map Payee.isActive).getD false then
      if filteredPms.any (fun pm => decide (pm.type = PayoutMethodType.ACCOUNT_BALANCE)) then
        filteredPms
      else
        syntheticAccountBalance :: filteredPms
    else filteredPms
  let filteredPms : List PayoutMethod :=
    match payee with
    | some p =>
      if p.type ∈ CollectiveFamilyTypes then
        filteredPms.filter (fun pm => decide (pm.type = PayoutMethodType.ACCOUNT_BALANCE))
      else filteredPms
    | none => filteredPms
  if filteredPms.length > 0 then filteredPms else []

end ExpenseForm

namespace ExpenseFormPayeeSignUpStep

/-- getPayoutMethodsFromPayee as defined in ExpenseFormPayeeSignUpStep.js:
textually the same algorithm as the ExpenseForm copy, with the
collective-family restriction taken from AccountTypesWithHost instead of
CollectiveFamilyTypes. -/
def getPayoutMethodsFromPayee (payee : Option Payee) : List PayoutMethod :=
  let basePms : List PayoutMethod := (payee.bind Payee.payoutMethods).getD []
  let filteredPms := basePms.filter (fun pm => pm.isSaved)
  let filteredPms : List PayoutMethod :=
    if (payee.map Payee.isActive).getD false then
      if filteredPms.any (fun pm => decide (pm.type = PayoutMethodType.ACCOUNT_BALANCE)) then
        filteredPms
      else
        syntheticAccountBalance :: filteredPms
    else filteredPms
  let filteredPms : List PayoutMethod :=
    match payee with
    | some p =>
      if p.type ∈ AccountTypesWithHost then
        filteredPms.filter (fun pm => decide (pm.type = PayoutMethodType.ACCOUNT_BALANCE))
      else filteredPms
    | none => filteredPms
  if filteredPms.length > 0 then filteredPms else []

end ExpenseFormPayeeSignUpStep

/-- The saved subsequence of the payout methods of a payee, as computed
by the first step of the filter. -/
def savedPayoutMethods (p : Payee) : List PayoutMethod :=
  (p.payoutMethods.getD []).filter (fun pm => pm.isSaved)

/-- Whether a payee already has a saved account-balance payout method. -/
def hasSavedAccountBalance (p : Payee) : Bool :=
  (savedPayoutMethods p).any (fun pm => decide (pm.type = PayoutMethodType.ACCOUNT_BALANCE))

/-- A JavaScript account identifier value: the live scheme uses string
ids, the legacy scheme numeric ids. -/
inductive JsId where
  | str (s : String)
  | num (n : Int)
deriving DecidableEq, Repr

/-- The draft payee object as read by prepareExpenseForSubmit, and also
the shape of the single-key account reference it produces: an object
with an optional id key and an optional legacyId key. An absent key and
a key holding undefined are identified, matching the optional-chaining
reads of the source. -/
structure PayeeRecord where
  id : Option JsId
  legacyId : Option JsId
deriving DecidableEq, Repr

/-- An expense line item. `__isNew` marks items created in this session
for keying purposes; an absent key is modelled as false. -/
structure ExpenseItem where
  id : Option String
  __isNew : Bool
  url : Option String
  description : Option String
  incurredAt : Option String
  amount : Option Int
deriving DecidableEq, Repr

/-- An attached file. The source reduces files to their id and url keys
with pick; `name` stands for any further key a draft file may carry, so
that the reduction is observable in the model. -/
structure ExpenseFile where
  id : Option String
  url : Option String
  name : Option String
deriving DecidableEq, Repr

/-- The payeeLocation object: address and country. -/
structure ExpenseLocation where
  address : Option String
  country : Option String
deriving DecidableEq, Repr

/-- Expense types, from the constants module (outside the given sources;
the sources use INVOICE, RECEIPT and FUNDING_REQUEST). -/
inductive ExpenseType where
  | INVOICE
  | RECEIPT
  | FUNDING_REQUEST
deriving DecidableEq, Repr

/-- The expense draft. The same structure also types the submission
payload produced by prepareExpenseForSubmit: a key dropped by pick is
modelled as none (or false for `__isNew`), matching the identification
of absent and undefined keys. `type` is modelled as always present, as
it is on every draft the reducer and validator are invoked on. -/
structure ExpenseDraft where
  id : Option String
  description : Option String
  longDescription : Option String
  type : ExpenseType
  privateMessage : Option String
  invoiceInfo : Option String
  tags : Option (List String)
  payee : Option PayeeRecord
  payoutMethod : Option PayoutMethod
  currency : Option String
  items : List ExpenseItem
  payeeLocation : Option ExpenseLocation
  attachedFiles : Option (List ExpenseFile)
deriving DecidableEq, Repr

/-- Whether typeof expenseData.payee?.id === string holds: the payee is
present and its id key holds a string value. -/
def payeeIdIsString (payee : Option PayeeRecord) : Bool :=
  match payee with
  | some p =>
    match p.id with
    | some (JsId.str _) => true
    | _ => false
  | none => false

/-- prepareExpenseForSubmit from the ExpenseForm module. Notes on the
embedding: pick of the five payoutMethod keys is the identity on the
PayoutMethod structure, whose fields are exactly those keys, and pick of
a null payoutMethod gives the empty object, identified with none; pick
of an absent payeeLocation gives the empty object, modelled as the
location with both keys absent. -/
def prepareExpenseForSubmit (expenseData : ExpenseDraft) : ExpenseDraft :=
  let payeeIdFieldIsId := payeeIdIsString expenseData.payee
  let isInvoice := decide (expenseData.type = ExpenseType.INVOICE)
  let isFundingRequest := decide (expenseData.type = ExpenseType.FUNDING_REQUEST)
  { id := expenseData.id
    description := expenseData.description
    longDescription := expenseData.longDescription
    type := expenseData.type
    privateMessage := expenseData.privateMessage
    invoiceInfo := expenseData.invoiceInfo
    tags := expenseData.tags
    payee := expenseData.payee.map (fun p =>
      if payeeIdFieldIsId then { id := p.id, legacyId := none }
      else { id := none, legacyId := p.id })
    payoutMethod := expenseData.payoutMethod
    currency := none
    items := expenseData.items.map (fun item =>
      { id := if item.__isNew then none else item.id
        __isNew := false
        url := if isInvoice || isFundingRequest then none else item.url
        description := item.description
        incurredAt := item.incurredAt
        amount := item.amount })
    payeeLocation :=
      if isInvoice then
        some { address := (expenseData.payeeLocation.map ExpenseLocation.address).getD none
               country := (expenseData.payeeLocation.map ExpenseLocation.country).getD none }
      else none
    attachedFiles :=
      if isInvoice then
        expenseData.attachedFiles.map
          (List.map (fun f => { id := f.id, url := f.url, name := none }))
      else some [] }

/-- Error kinds attached to fields; the sources use FORM_FIELD_REQUIRED
from the errors library. -/
inductive ERROR where
  | FORM_FIELD_REQUIRED
deriving DecidableEq, Repr

/-- The value under the payoutMethod error key: either the required-field
kind from requireFields, or the mapping produced by the external
payout-method validator (abstracted as a list of strings). -/
inductive PayoutMethodFieldError where
  | required
  | custom (e : List String)
deriving DecidableEq, Repr

/-- The nested error object under the payeeLocation key. -/
structure LocationErrors where
  country : Option ERROR
  address : Option ERROR
deriving DecidableEq, Repr

/-- The error mapping returned by validate, with one optional slot per
field path the function can populate. -/
structure ExpenseErrors where
  description : Option ERROR
  payee : Option ERROR
  payoutMethod : Option PayoutMethodFieldError
  currency : Option ERROR
  items : Option (List (List String))
  payeeLocation : Option LocationErrors
deriving DecidableEq, Repr

/-- Modelled from the spec: whether a string-valued field counts as
missing/empty for requireFields (lib/form-utils is not among the given
sources): absent, null, or the empty string. -/
def missingString : Option String → Bool
  | none => true
  | some s => s.isEmpty

/-- Modelled from the spec: requireFields at its first call site in
validate, over description, payee, payoutMethod and currency; a
missing/empty field yields the FORM_FIELD_REQUIRED kind for that field
(requireFields itself is in lib/form-utils, not among the given
sources). -/
def requireBaseFields (expense : ExpenseDraft) : ExpenseErrors :=
  { description :=
      if missingString expense.description then some ERROR.FORM_FIELD_REQUIRED else none
    payee := if expense.payee.isNone then some ERROR.FORM_FIELD_REQUIRED else none
    payoutMethod :=
      if expense.payoutMethod.isNone then some PayoutMethodFieldError.required else none
    currency := if missingString expense.currency then some ERROR.FORM_FIELD_REQUIRED else none
    items := none
    payeeLocation := none }

/-- Modelled from the spec: requireFields at its second call site in
validate, over the nested paths payeeLocation.country and
payeeLocation.address; requireFields sets only failing paths, so when
both are present the result is empty and Object.assign leaves the
payeeLocation key of the errors absent (none here). -/
def requirePayeeLocationFields (expense : ExpenseDraft) : Option LocationErrors :=
  let country : Option String := (expense.payeeLocation.map ExpenseLocation.country).getD none
  let address : Option String := (expense.payeeLocation.map ExpenseLocation.address).getD none
  let countryError : Option ERROR :=
    if missingString country then some ERROR.FORM_FIELD_REQUIRED else none
  let addressError : Option ERROR :=
    if missingString address then some ERROR.FORM_FIELD_REQUIRED else none
  if countryError.isNone && addressError.isNone then none
  else some { country := countryError, address := addressError }

/-- validate from the ExpenseForm module. The item validator and the
payout-method validator are external collaborators (ExpenseItemForm and
PayoutMethodForm are not among the given sources), so validate is
parameterised over them; their error mappings are abstracted as lists
whose emptiness agrees with isEmpty. -/
def validate
    (validateExpenseItem : ExpenseDraft → ExpenseItem → List String)
    (validatePayoutMethod : PayoutMethod → List String)
    (expense : ExpenseDraft) : ExpenseErrors :=
  let errors := requireBaseFields expense
  let errors : ExpenseErrors :=
    if expense.items.length > 0 then
      let itemsErrors := expense.items.map (validateExpenseItem expense)
      if itemsErrors.any (fun e => !e.isEmpty) then { errors with items := some itemsErrors }
      else errors
    else errors
  let errors : ExpenseErrors :=
    match expense.payoutMethod with
    | some pm =>
      let payoutMethodErrors := validatePayoutMethod pm
      if payoutMethodErrors.isEmpty then errors
      else { errors with payoutMethod := some (PayoutMethodFieldError.custom payoutMethodErrors) }
    | none => errors
  if expense.type = ExpenseType.INVOICE then
    match requirePayeeLocationFields expense with
    | some locErrors => { errors with payeeLocation := some locErrors }
    | none => errors
  else errors

/-- A saved PayPal payout method, used as a concrete sample. -/
def samplePaypal : PayoutMethod :=
  { id := "pm1", name := some "PayPal", data := [("email", "a@b.c")],
    isSaved := true, type := PayoutMethodType.PAYPAL }

/-- A saved account-balance payout method, used as a concrete sample. -/
def sampleBalance : PayoutMethod :=
  { id := "pm2", name := none, data := [], isSaved := true,
    type := PayoutMethodType.ACCOUNT_BALANCE }

/-- An inactive user payee with one saved PayPal method. -/
def pUser : Payee :=
  { id := "u1", type := CollectiveType.USER, isActive := false,
    payoutMethods := some [samplePaypal] }

/-- An active user payee with one saved PayPal method. -/
def pActiveUser : Payee :=
  { id := "u2", type := CollectiveType.USER, isActive := true,
    payoutMethods := some [samplePaypal] }

/-- An active user payee with a saved account-balance method. -/
def pActiveUserBalance : Payee :=
  { id := "u3", type := CollectiveType.USER, isActive := true,
    payoutMethods := some [sampleBalance] }

/-- An active collective payee with no payout methods. -/
def pFamilyEmpty : Payee :=
  { id := "c1", type := CollectiveType.COLLECTIVE, isActive := true,
    payoutMethods := none }

/-- An active collective payee with one saved PayPal method. -/
def pFamilyPaypal : Payee :=
  { id := "c2", type := CollectiveType.COLLECTIVE, isActive := true,
    payoutMethods := some [samplePaypal] }

/-- C9: when the payee argument is undefined or null (modelled as none),
getPayoutMethodsFromPayee returns the empty sequence, with no fault: the
function is total. -/
theorem getPayoutMethodsFromPayee_none :
    ExpenseForm.getPayoutMethodsFromPayee none = [] := by decide

/-- C1: for every payee whose type is in the collective-family set, every
entry of the result of getPayoutMethodsFromPayee has type
ACCOUNT_BALANCE, regardless of isActive and of synthetic injection. -/
theorem family_payees_only_account_balance (p : Payee)
    (h : p.type ∈ CollectiveFamilyTypes) :
    ∀ pm ∈ ExpenseForm.getPayoutMethodsFromPayee (some p),
      pm.type = PayoutMethodType.ACCOUNT_BALANCE := by
  intro pm hpm
  unfold ExpenseForm.getPayoutMethodsFromPayee at hpm
  simp [h] at hpm
  exact hpm.2.2

theorem family_payees_only_account_balance_witness :
    pFamilyEmpty.type ∈ CollectiveFamilyTypes
      ∧ syntheticAccountBalance ∈ ExpenseForm.getPayoutMethodsFromPayee (some pFamilyEmpty)
      ∧ syntheticAccountBalance.type = PayoutMethodType.ACCOUNT_BALANCE :=
  ⟨by decide, by decide,
    family_payees_only_account_balance pFamilyEmpty (by decide)
      syntheticAccountBalance (by decide)⟩

/-- C3: for every inactive payee whose type is outside the
collective-family set, getPayoutMethodsFromPayee returns exactly the
saved subsequence of its payout methods, in order, unchanged. -/
theorem inactive_nonfamily_saved_methods (p : Payee)
    (h1 : p.isActive = false) (h2 : p.type ∉ CollectiveFamilyTypes) :
    ExpenseForm.getPayoutMethodsFromPayee (some p) = savedPayoutMethods p := by
  unfold ExpenseForm.getPayoutMethodsFromPayee savedPayoutMethods
  simp [h1, h2]

theorem inactive_nonfamily_saved_methods_witness :
    pUser.isActive = false
      ∧ pUser.type ∉ CollectiveFamilyTypes
      ∧ ExpenseForm.getPayoutMethodsFromPayee (some pUser) = savedPayoutMethods pUser :=
  ⟨by decide, by decide, inactive_nonfamily_saved_methods pUser (by decide) (by decide)⟩

/-- C10: the two independently defined copies of getPayoutMethodsFromPayee
compute the same function: under the hypothesis that the two
collective-family type sets coincide, the two copies agree on every
payee. -/
theorem payout_filter_copies_agree
    (h : CollectiveFamilyTypes = AccountTypesWithHost) (payee : Option Payee) :
    ExpenseForm.getPayoutMethodsFromPayee payee
      = ExpenseFormPayeeSignUpStep.getPayoutMethodsFromPayee payee := by
  unfold ExpenseForm.getPayoutMethodsFromPayee ExpenseFormPayeeSignUpStep.getPayoutMethodsFromPayee
  rw [h]

theorem payout_filter_copies_agree_witness :
    CollectiveFamilyTypes = AccountTypesWithHost
      ∧ ExpenseForm.getPayoutMethodsFromPayee (some pFamilyPaypal)
          = ExpenseFormPayeeSignUpStep.getPayoutMethodsFromPayee (some pFamilyPaypal) :=
  ⟨rfl, payout_filter_copies_agree rfl (some pFamilyPaypal)⟩

/-- C2 counterexample: an active collective-family payee with one saved
PayPal method satisfies the hypotheses of the claim (isActive true, no
saved account-balance method), yet the result is not the synthetic entry
prepended to the saved methods: the collective-family restriction also
discards the saved PayPal entry. -/
theorem active_family_payee_injection_counterexample :
    pFamilyPaypal.isActive = true
      ∧ hasSavedAccountBalance pFamilyPaypal = false
      ∧ ExpenseForm.getPayoutMethodsFromPayee (some pFamilyPaypal)
          ≠ syntheticAccountBalance :: savedPayoutMethods pFamilyPaypal := by
  refine ⟨by decide, by decide, ?_⟩
  decide

/-- C2, amended: for every active payee, (a) when additionally the payee
type is outside the collective-family set and no saved method has type
ACCOUNT_BALANCE, the result is exactly the synthetic entry prepended to
the saved methods; (b) when a saved ACCOUNT_BALANCE method exists, no
synthetic entry is injected: every entry of the result is one of the
saved methods. -/
theorem active_payee_balance_injection (p : Payee) (h : p.isActive = true) :
    (p.type ∉ CollectiveFamilyTypes → hasSavedAccountBalance p = false →
      ExpenseForm.getPayoutMethodsFromPayee (some p)
        = syntheticAccountBalance :: savedPayoutMethods p)
    ∧ (hasSavedAccountBalance p = true →
      ∀ pm ∈ ExpenseForm.getPayoutMethodsFromPayee (some p), pm ∈ savedPayoutMethods p) := by
  constructor
  · intro hfam hab
    simp [hasSavedAccountBalance, savedPayoutMethods] at hab
    unfold ExpenseForm.getPayoutMethodsFromPayee
    simp [h, hfam, savedPayoutMethods]
    have hex : ¬ ∃ x ∈ p.payoutMethods.getD [],
        x.isSaved = true ∧ x.type = PayoutMethodType.ACCOUNT_BALANCE := by
      rintro ⟨x, hx, hs, ht⟩
      exact hab x hx hs ht
    rw [if_neg hex]
    simp
  · intro hab pm hpm
    simp [hasSavedAccountBalance, savedPayoutMethods] at hab
    unfold ExpenseForm.getPayoutMethodsFromPayee at hpm
    simp [h, hab, savedPayoutMethods] at hpm ⊢
    by_cases hf : p.type ∈ CollectiveFamilyTypes <;> simp [hf] at hpm <;> tauto

theorem active_payee_balance_injection_witness :
    pActiveUser.isActive = true
      ∧ pActiveUser.type ∉ CollectiveFamilyTypes
      ∧ hasSavedAccountBalance pActiveUser = false
      ∧ ExpenseForm.getPayoutMethodsFromPayee (some pActiveUser)
          = syntheticAccountBalance :: savedPayoutMethods pActiveUser :=
  ⟨by decide, by decide, by decide,
    (active_payee_balance_injection pActiveUser (by decide)).1 (by decide) (by decide)⟩

/-- A payee record with a string-typed identifier (the live scheme). -/
def pRecStr : PayeeRecord := { id := some (JsId.str "acct1"), legacyId := none }

/-- A payee record with a number-typed identifier (the legacy scheme). -/
def pRecNum : PayeeRecord := { id := some (JsId.num 42), legacyId := none }

/-- A fully populated invoice-type draft, used as a concrete sample. -/
def dInvoice : ExpenseDraft :=
  { id := some "e1", description := some "server costs", longDescription := none,
    type := ExpenseType.INVOICE, privateMessage := none, invoiceInfo := none,
    tags := some ["ops"], payee := some pRecStr, payoutMethod := some samplePaypal,
    currency := some "USD",
    items := [{ id := some "i1", __isNew := false, url := some "r1",
                description := some "item", incurredAt := some "2020-01-01",
                amount := some 100 }],
    payeeLocation := some { address := some "42 Wallaby Way", country := some "AU" },
    attachedFiles := some [{ id := some "f1", url := some "f1url", name := some "doc" }] }

/-- The same draft with receipt type. -/
def dReceipt : ExpenseDraft := { dInvoice with type := ExpenseType.RECEIPT }

/-- The same draft with a legacy number-typed payee identifier. -/
def dLegacy : ExpenseDraft := { dInvoice with payee := some pRecNum }

/-- A receipt draft with empty description, no payee, no payout method, a
currency and no items. -/
def dMissingFields : ExpenseDraft :=
  { id := none, description := some "", longDescription := none,
    type := ExpenseType.RECEIPT, privateMessage := none, invoiceInfo := none,
    tags := none, payee := none, payoutMethod := none, currency := some "USD",
    items := [], payeeLocation := some { address := some "", country := none },
    attachedFiles := none }

/-- An invoice draft whose payee location has a null country and an empty
address. -/
def dInvoiceNoLocation : ExpenseDraft :=
  { dInvoice with payeeLocation := some { address := some "", country := none } }

/-- C5: for every draft with a present payee, the payee reference of the
payload is a single-key object: keyed by id when the identifier is
string-typed (the other key absent), keyed by legacyId otherwise (the id
key absent). -/
theorem prepare_payee_reference_key (d : ExpenseDraft) (p : PayeeRecord)
    (h : d.payee = some p) :
    (payeeIdIsString d.payee = true →
      (prepareExpenseForSubmit d).payee = some { id := p.id, legacyId := none })
    ∧ (payeeIdIsString d.payee = false →
      (prepareExpenseForSubmit d).payee = some { id := none, legacyId := p.id }) := by
  constructor <;> intro hs <;> rw [h] at hs <;> simp [prepareExpenseForSubmit, h, hs]

theorem prepare_payee_reference_key_witness :
    dInvoice.payee = some pRecStr
      ∧ payeeIdIsString dInvoice.payee = true
      ∧ (prepareExpenseForSubmit dInvoice).payee = some { id := pRecStr.id, legacyId := none } :=
  ⟨rfl, by decide, (prepare_payee_reference_key dInvoice pRecStr rfl).1 (by decide)⟩

/-- C6: type-dependent shaping of the payload. Invoice: payeeLocation is
the picked address and country of the draft, attachedFiles is retained
with each file reduced to id and url, and every item url is dropped.
Receipt: payeeLocation is null, attachedFiles is empty, and item urls are
preserved. Funding request: item urls are dropped. -/
theorem prepare_type_dependent_fields (d : ExpenseDraft) :
    (d.type = ExpenseType.INVOICE →
      (prepareExpenseForSubmit d).payeeLocation
          = some { address := (d.payeeLocation.map ExpenseLocation.address).getD none,
                   country := (d.payeeLocation.map ExpenseLocation.country).getD none }
        ∧ (prepareExpenseForSubmit d).attachedFiles
          = d.attachedFiles.map
              (List.map (fun f => { id := f.id, url := f.url, name := none }))
        ∧ ∀ item ∈ (prepareExpenseForSubmit d).items, item.url = none)
    ∧ (d.type = ExpenseType.RECEIPT →
      (prepareExpenseForSubmit d).payeeLocation = none
        ∧ (prepareExpenseForSubmit d).attachedFiles = some []
        ∧ (prepareExpenseForSubmit d).items.map ExpenseItem.url
            = d.items.map ExpenseItem.url)
    ∧ (d.type = ExpenseType.FUNDING_REQUEST →
      ∀ item ∈ (prepareExpenseForSubmit d).items, item.url = none) := by
  refine ⟨fun h => ?_, fun h => ?_, fun h => ?_⟩ <;>
    simp [prepareExpenseForSubmit, h, List.map_map, Function.comp]

theorem prepare_type_dependent_fields_witness :
    (prepareExpenseForSubmit dInvoice).payeeLocation
        = some { address := (dInvoice.payeeLocation.map ExpenseLocation.address).getD none,
                 country := (dInvoice.payeeLocation.map ExpenseLocation.country).getD none }
      ∧ (prepareExpenseForSubmit dReceipt).payeeLocation = none
      ∧ (prepareExpenseForSubmit dReceipt).attachedFiles = some []
      ∧ (prepareExpenseForSubmit dReceipt).items.map ExpenseItem.url
          = dReceipt.items.map ExpenseItem.url :=
  ⟨((prepare_type_dependent_fields dInvoice).1 rfl).1,
   ((prepare_type_dependent_fields dReceipt).2.1 rfl).1,
   ((prepare_type_dependent_fields dReceipt).2.1 rfl).2.1,
   ((prepare_type_dependent_fields dReceipt).2.1 rfl).2.2⟩

/-- Whether the payee identifier uses the legacy number scheme: the payee
is present and its id key holds a numeric value. -/
def payeeIdIsLegacyNumber (payee : Option PayeeRecord) : Bool :=
  match payee with
  | some p =>
    match p.id with
    | some (JsId.num _) => true
    | _ => false
  | none => false

/-- C4 counterexample: on a draft whose payee identifier is a legacy
number, prepareExpenseForSubmit is not idempotent: the first pass keys
the reference by legacyId, and the second pass reads the (absent) id key
of that reference, producing a reference with no identifier value. -/
theorem prepare_legacy_id_not_idempotent :
    prepareExpenseForSubmit (prepareExpenseForSubmit dLegacy)
      ≠ prepareExpenseForSubmit dLegacy := by decide

/-- C4, amended: prepareExpenseForSubmit is idempotent on every draft
whose payee identifier is not a legacy number (absent payee, absent
identifier, or string identifier): applying it to its own output yields
the same payload, on every field it touches. -/
theorem prepareExpenseForSubmit_idempotent (d : ExpenseDraft)
    (h : payeeIdIsLegacyNumber d.payee = false) :
    prepareExpenseForSubmit (prepareExpenseForSubmit d) = prepareExpenseForSubmit d := by
  have hfile :
      ((fun (f : ExpenseFile) => ({ id := f.id, url := f.url, name := none } : ExpenseFile)) ∘
        (fun (f : ExpenseFile) => ({ id := f.id, url := f.url, name := none } : ExpenseFile)))
      = (fun (f : ExpenseFile) => ({ id := f.id, url := f.url, name := none } : ExpenseFile)) := by
    funext f
    rfl
  obtain ⟨did, ddesc, dldesc, dty, dpriv, dinv, dtags, dpayee, dpom, dcur, ditems, dloc, daf⟩ := d
  cases dpayee with
  | none =>
    cases dty <;> simp [prepareExpenseForSubmit, payeeIdIsString, List.map_map, hfile]
  | some p =>
    cases hpid : p.id with
    | none =>
      cases dty <;>
        simp [prepareExpenseForSubmit, payeeIdIsString, hpid, List.map_map, hfile]
    | some v =>
      cases v with
      | str s =>
        cases dty <;>
          simp [prepareExpenseForSubmit, payeeIdIsString, hpid, List.map_map, hfile]
      | num n =>
        simp [payeeIdIsLegacyNumber, hpid] at h

theorem prepareExpenseForSubmit_idempotent_witness :
    payeeIdIsLegacyNumber dInvoice.payee = false
      ∧ prepareExpenseForSubmit (prepareExpenseForSubmit dInvoice)
          = prepareExpenseForSubmit dInvoice :=
  ⟨by decide, prepareExpenseForSubmit_idempotent dInvoice (by decide)⟩

/-- C7: on a draft with empty description, null payee, null payout
method, a present currency, no items and receipt type, validate yields
the required-field kind for description, payee and payoutMethod, no
currency entry and no payeeLocation entries, for any choice of the
external item and payout-method validators. -/
theorem validate_missing_required_fields
    (vItem : ExpenseDraft → ExpenseItem → List String)
    (vPM : PayoutMethod → List String) (d : ExpenseDraft)
    (hdesc : missingString d.description = true)
    (hpayee : d.payee = none)
    (hpm : d.payoutMethod = none)
    (hcur : missingString d.currency = false)
    (hitems : d.items = [])
    (htype : d.type = ExpenseType.RECEIPT) :
    (validate vItem vPM d).description = some ERROR.FORM_FIELD_REQUIRED
      ∧ (validate vItem vPM d).payee = some ERROR.FORM_FIELD_REQUIRED
      ∧ (validate vItem vPM d).payoutMethod = some PayoutMethodFieldError.required
      ∧ (validate vItem vPM d).currency = none
      ∧ (validate vItem vPM d).payeeLocation = none := by
  simp [validate, requireBaseFields, hdesc, hpayee, hpm, hcur, hitems, htype]

theorem validate_missing_required_fields_witness :
    missingString dMissingFields.description = true
      ∧ dMissingFields.payee = none
      ∧ dMissingFields.payoutMethod = none
      ∧ missingString dMissingFields.currency = false
      ∧ dMissingFields.items = []
      ∧ dMissingFields.type = ExpenseType.RECEIPT
      ∧ (validate (fun _ _ => []) (fun _ => []) dMissingFields).description
          = some ERROR.FORM_FIELD_REQUIRED
      ∧ (validate (fun _ _ => []) (fun _ => []) dMissingFields).payee
          = some ERROR.FORM_FIELD_REQUIRED
      ∧ (validate (fun _ _ => []) (fun _ => []) dMissingFields).payoutMethod
          = some PayoutMethodFieldError.required
      ∧ (validate (fun _ _ => []) (fun _ => []) dMissingFields).currency = none
      ∧ (validate (fun _ _ => []) (fun _ => []) dMissingFields).payeeLocation = none := by
  have h := validate_missing_required_fields (fun _ _ => []) (fun _ => []) dMissingFields
    (by decide) rfl rfl (by decide) rfl rfl
  exact ⟨by decide, rfl, rfl, by decide, rfl, rfl,
    h.1, h.2.1, h.2.2.1, h.2.2.2.1, h.2.2.2.2⟩

/-- The payeeLocation slot of the validator output: populated exactly by
the invoice-only nested required-field check; no other rule of validate
writes to it. -/
theorem validate_payeeLocation_eq
    (vItem : ExpenseDraft → ExpenseItem → List String)
    (vPM : PayoutMethod → List String) (d : ExpenseDraft) :
    (validate vItem vPM d).payeeLocation
      = if d.type = ExpenseType.INVOICE then requirePayeeLocationFields d else none := by
  unfold validate
  cases hpm : d.payoutMethod <;> cases hloc : requirePayeeLocationFields d <;>
    by_cases ht : d.type = ExpenseType.INVOICE <;>
      simp [hpm, hloc, ht, requireBaseFields, apply_ite ExpenseErrors.payeeLocation]

/-- C8: for invoice-type drafts validate additionally requires
payeeLocation.country and payeeLocation.address: whenever either is
missing/empty, the result carries the required-field kind for that field
nested under payeeLocation; for every other type, validate writes no
payeeLocation errors at all. -/
theorem validate_invoice_location_required
    (vItem : ExpenseDraft → ExpenseItem → List String)
    (vPM : PayoutMethod → List String) (d : ExpenseDraft) :
    (d.type = ExpenseType.INVOICE →
      (missingString ((d.payeeLocation.map ExpenseLocation.country).getD none) = true →
        ∃ locErrors, (validate vItem vPM d).payeeLocation = some locErrors
          ∧ locErrors.country = some ERROR.FORM_FIELD_REQUIRED)
      ∧ (missingString ((d.payeeLocation.map ExpenseLocation.address).getD none) = true →
        ∃ locErrors, (validate vItem vPM d).payeeLocation = some locErrors
          ∧ locErrors.address = some ERROR.FORM_FIELD_REQUIRED))
    ∧ (d.type ≠ ExpenseType.INVOICE → (validate vItem vPM d).payeeLocation = none) := by
  constructor
  · intro ht
    constructor
    · intro hc
      rw [validate_payeeLocation_eq, if_pos ht]
      unfold requirePayeeLocationFields
      simp [hc]
    · intro hc
      rw [validate_payeeLocation_eq, if_pos ht]
      unfold requirePayeeLocationFields
      simp [hc]
  · intro ht
    rw [validate_payeeLocation_eq, if_neg ht]

theorem validate_invoice_location_required_witness :
    dInvoiceNoLocation.type = ExpenseType.INVOICE
      ∧ missingString ((dInvoiceNoLocation.payeeLocation.map ExpenseLocation.country).getD none)
          = true
      ∧ missingString ((dInvoiceNoLocation.payeeLocation.map ExpenseLocation.address).getD none)
          = true
      ∧ (∃ locErrors,
          (validate (fun _ _ => []) (fun _ => []) dInvoiceNoLocation).payeeLocation
              = some locErrors
            ∧ locErrors.country = some ERROR.FORM_FIELD_REQUIRED)
      ∧ (∃ locErrors,
          (validate (fun _ _ => []) (fun _ => []) dInvoiceNoLocation).payeeLocation
              = some locErrors
            ∧ locErrors.address = some ERROR.FORM_FIELD_REQUIRED) := by
  refine ⟨rfl, by decide, by decide, ?_, ?_⟩
  · exact ((validate_invoice_location_required (fun _ _ => []) (fun _ => [])
      dInvoiceNoLocation).1 rfl).1 (by decide)
  · exact ((validate_invoice_location_required (fun _ _ => []) (fun _ => [])
      dInvoiceNoLocation).1 rfl).2 (by decide)
